import Mathlib

/-!
Shallow embedding of the WeakRef subsystem (runtime/src/main/jni/WeakRef.cpp).

The file models, per weak-reference instance, the shared `CallbackState`
record, the holder object's hidden slot, and the registration ("armed")
status of the two weak handles, together with the bodies of
`WeakTargetCallback`, `WeakHolderCallback`, `ClearCallback`,
`GettertCallback`, `ConstructorCallbackImpl`, `GetGetterFunction` and
`GetClearFunction`.  Pointer-valued fields that the code only ever
null-checks are modelled as `Bool` (`true` iff the pointer is non-null).
-/

namespace WeakRefModel

/-- Script-level value, as discriminated by the constructor argument checks
(`target->IsObject()` in the source). -/
inductive ScriptValue where
  | object (id : Nat)
  | number (n : Int)
  | str (s : String)
  | boolean (b : Bool)
  | nullVal
  | undefined
deriving DecidableEq

/-- Model of `v8::Value::IsObject` for the constructor argument. -/
def ScriptValue.isObject : ScriptValue → Bool
  | ScriptValue.object _ => true
  | _ => false

/-- Call-site information available to the constructor callback:
`args.IsConstructCall()` and the argument list `args[0..]`. -/
structure CallInfo where
  isConstructCall : Bool
  args : List ScriptValue
deriving DecidableEq

/-- Native faults that can be thrown inside a callback body, matching the
three catch clauses of the source: `NativeScriptException`,
`std::exception`, and `catch (...)`. -/
inductive NativeFault where
  | nsException (msg : String)
  | stdException (what : String)
  | unknown
deriving DecidableEq

/-- Result of invoking an entry point, as seen by the hosting engine:
normal completion, a script-visible exception (re-thrown via
`ReThrowToV8`), or a native fault that escaped uncaught. -/
inductive Outcome (α : Type) where
  | ok (a : α)
  | scriptError (msg : String)
  | nativeEscape (f : NativeFault)
deriving DecidableEq

/-- Predicate on an outcome: a native fault escaped the entry point
without being converted to a script-visible exception. -/
def Outcome.escaped {α : Type} : Outcome α → Bool
  | Outcome.nativeEscape _ => true
  | _ => false

/-- Message produced by the catch clauses of the source when re-throwing a
native fault to script: a `NativeScriptException` keeps its message, a
`std::exception` is wrapped as `"Error: c++ exception: " << e.what() << endl`,
and `catch (...)` produces the fixed generic message. -/
def reThrowMessage : NativeFault → String
  | NativeFault.nsException m => m
  | NativeFault.stdException what => "Error: c++ exception: " ++ what ++ "\n"
  | NativeFault.unknown => "Error: c++ exception!"

/-- The `try`/`catch` wrapper shared by `ConstructorCallback`,
`WeakHolderCallback`, `ClearCallback`, `GettertCallback`,
`GetGetterFunction` and `GetClearFunction`: every native fault becomes a
script-visible exception. -/
def faultBoundary {α : Type} : Except NativeFault α → Outcome α
  | Except.ok a => Outcome.ok a
  | Except.error f => Outcome.scriptError (reThrowMessage f)

/-- Absence of a `try`/`catch` wrapper: `WeakTargetCallback` has none in
the source, so a native fault raised in its body escapes uncaught. -/
def noBoundary {α : Type} : Except NativeFault α → Outcome α
  | Except.ok a => Outcome.ok a
  | Except.error f => Outcome.nativeEscape f

/-- Injection point for a native fault raised by the engine while a
callback body runs: if a fault occurs the body aborts with it, otherwise
the body's own result stands. -/
def runBody {α : Type} (fault? : Option NativeFault) (body : Except NativeFault α) :
    Except NativeFault α :=
  match fault? with
  | some f => Except.error f
  | none => body

/-- The shared record `CallbackState { Persistent<Object>* target;
Persistent<Object>* holder; }`.  A field is `true` iff the corresponding
pointer is non-null (`false` models `nullptr`, the spec's `None`). -/
structure CallbackState where
  target : Bool
  holder : Bool
deriving DecidableEq

/-- The holder object's hidden slot (`V8StringConstants::GetTarget()`), which
holds either `External(poTarget)` for the instance's live target handle, or
`External(nullptr)`, the absent sentinel. -/
inductive SlotVal where
  | live
  | absent
deriving DecidableEq

/-- Per-instance state: the object the target handle refers to, the
`CallbackState` fields, the holder's hidden slot, whether each weak handle
currently has a registered (armed) finalize callback, and how many times
`delete callbackState` has executed. -/
structure InstState where
  targetObj : Nat
  cs : CallbackState
  slot : SlotVal
  targetArmed : Bool
  holderArmed : Bool
  csFreeCount : Nat
deriving DecidableEq

/-- Body of `WeakRef::WeakTargetCallback` (WeakRef.cpp lines 93-113):
release the target persistent and null `callbackState->target`; if
`callbackState->holder` is non-null overwrite the holder's hidden slot
with `External(nullptr)`; if `callbackState->holder` is null, delete the
`CallbackState`. -/
def targetCbImpl (s : InstState) : InstState :=
  let s1 : InstState := { s with cs := { s.cs with target := false } }
  let s2 : InstState := if s1.cs.holder then { s1 with slot := SlotVal.absent } else s1
  if s2.cs.holder then s2 else { s2 with csFreeCount := s2.csFreeCount + 1 }

/-- Body of the `try` block of `WeakRef::WeakHolderCallback` (lines
115-155): read the holder's hidden slot; if it holds a non-null target
persistent, re-register the same callback on the holder handle
(`poHolder->SetWeak(callbackState, WeakHolderCallback)`); otherwise
release the holder persistent, null `callbackState->holder`, and delete
the `CallbackState` when `callbackState->target` is already null. -/
def holderCbImpl (s : InstState) : InstState :=
  match s.slot with
  | SlotVal.live => { s with holderArmed := true }
  | SlotVal.absent =>
      let s1 : InstState := { s with cs := { s.cs with holder := false } }
      if s1.cs.target then s1 else { s1 with csFreeCount := s1.csFreeCount + 1 }

/-- Body of the `try` block of `WeakRef::ClearCallback` (lines 157-180):
`holder->SetHiddenValue(GetTarget, External::New(isolate, nullptr))`. -/
def clearImpl (s : InstState) : InstState :=
  { s with slot := SlotVal.absent }

/-- Value returned to script by `get`. -/
inductive RetValue where
  | obj (id : Nat)
  | nullVal
deriving DecidableEq

/-- Body of the `try` block of `WeakRef::GettertCallback` (lines 182-214):
read the hidden slot; if it holds a non-null target persistent, resolve it
(`Local<Object>::New(isolate, *poTarget)`) and return the target object,
otherwise return `Null(isolate)`.  No state is written. -/
def getImpl (s : InstState) : RetValue × InstState :=
  match s.slot with
  | SlotVal.live => (RetValue.obj s.targetObj, s)
  | SlotVal.absent => (RetValue.nullVal, s)

/-- Collector semantics of the target handle's finalize callback firing:
the single-shot registration is consumed, then the body runs. -/
def fireTarget (s : InstState) : InstState :=
  targetCbImpl { s with targetArmed := false }

/-- Collector semantics of the holder handle's finalize callback firing:
the single-shot registration is consumed, then the body runs (which may
re-arm it). -/
def fireHolder (s : InstState) : InstState :=
  holderCbImpl { s with holderArmed := false }

/-- Events that can act on one instance: either finalize callback firing,
or script calling `clear()` or `get()` on the holder. -/
inductive Event where
  | targetFinalize
  | holderFinalize
  | clear
  | get
deriving DecidableEq

/-- One step of the instance.  A finalize callback can fire only while the
corresponding handle has a registered callback; script can call `clear`
or `get` only while it still holds the holder object, i.e. while the
holder has not been finalized (equivalently, while its handle is armed:
the callback's live branch re-arms, and the absent branch coincides with
the holder's death). -/
def step (s : InstState) : Event → Option InstState
  | Event.targetFinalize => if s.targetArmed then some (fireTarget s) else none
  | Event.holderFinalize => if s.holderArmed then some (fireHolder s) else none
  | Event.clear => if s.holderArmed then some (clearImpl s) else none
  | Event.get => if s.holderArmed then some (getImpl s).2 else none

/-- Run a sequence of events from a state; `none` when some event was not
enabled. -/
def run (s : InstState) : List Event → Option InstState
  | [] => some s
  | e :: es =>
      match step s e with
      | some s1 => run s1 es
      | none => none

/-- Per-instance state set up by a successful construction: both
`CallbackState` fields non-null, both handles armed via `SetWeak`, hidden
slot holding the live target handle, record not freed. -/
def initInst (x : Nat) : InstState :=
  { targetObj := x
    cs := { target := true, holder := true }
    slot := SlotVal.live
    targetArmed := true
    holderArmed := true
    csFreeCount := 0 }

/-- Inductive invariant of an instance: each handle is armed exactly while
its `CallbackState` field is non-null, and the record has been freed
exactly once iff both fields are null. -/
def Inv (s : InstState) : Prop :=
  s.targetArmed = s.cs.target ∧ s.holderArmed = s.cs.holder ∧
    s.csFreeCount = (if s.cs.target = false ∧ s.cs.holder = false then 1 else 0)

instance (s : InstState) : Decidable (Inv s) := by
  unfold Inv; infer_instance

/-- The controller (`WeakRef` instance registered on the global template),
holding the lazily built, cached `get` and `clear` function objects
(`m_poGetterFunc`, `m_poClearFunc`; `none` models `nullptr`). -/
structure WeakRefCtrl where
  m_poGetterFunc : Option Nat
  m_poClearFunc : Option Nat
deriving DecidableEq

/-- Allocation state of the engine: a counter producing fresh object and
function identities. -/
structure Heap where
  nextId : Nat
deriving DecidableEq

/-- Allocate a fresh identity. -/
def Heap.alloc (h : Heap) : Nat × Heap :=
  (h.nextId, { nextId := h.nextId + 1 })

/-- Body of the `try` block of `WeakRef::GetGetterFunction` (lines
216-246): return the cached function if `m_poGetterFunc` is non-null,
otherwise build a fresh function object, cache it, and return it. -/
def GetGetterFunction (ctrl : WeakRefCtrl) (h : Heap) : Nat × WeakRefCtrl × Heap :=
  match ctrl.m_poGetterFunc with
  | some f => (f, ctrl, h)
  | none =>
      let (f, h1) := h.alloc
      (f, { ctrl with m_poGetterFunc := some f }, h1)

/-- Body of the `try` block of `WeakRef::GetClearFunction` (lines
248-277): return the cached function if `m_poClearFunc` is non-null,
otherwise build a fresh function object, cache it, and return it. -/
def GetClearFunction (ctrl : WeakRefCtrl) (h : Heap) : Nat × WeakRefCtrl × Heap :=
  match ctrl.m_poClearFunc with
  | some f => (f, ctrl, h)
  | none =>
      let (f, h1) := h.alloc
      (f, { ctrl with m_poClearFunc := some f }, h1)

/-- Successful result of construction: the fresh holder object, its
per-instance state, and the function objects installed as `get` and
`clear`. -/
structure ConstructOk where
  weakRef : Nat
  inst : InstState
  getterFunc : Nat
  clearFunc : Nat
deriving DecidableEq

/-- Spec taxonomy of the constructor's validation failures. -/
inductive CtorErrKind where
  | InvalidArgumentCount
  | InvalidArgumentType
  | InvalidInvocation
deriving DecidableEq

/-- Exact constructor failure message thrown by the source for each kind
of validation failure. -/
def ctorFailureKind : CtorErrKind → String
  | CtorErrKind.InvalidArgumentCount => "The WeakRef constructor expects single parameter."
  | CtorErrKind.InvalidArgumentType => "The WeakRef constructor expects an object argument."
  | CtorErrKind.InvalidInvocation => "WeakRef must be used as a construct call."

/-- Body of `WeakRef::ConstructorCallbackImpl` (lines 48-91), with the
controller and heap threaded in source order.  On the success path it
allocates, in order: the empty holder object (`GetEmptyObject`), the
target persistent, the holder persistent and the `CallbackState`; arms
both weak callbacks; installs the (lazily cached) `get` and `clear`
functions; and writes `External(poTarget)` into the hidden slot.  Each
validation failure throws before any of these effects, so the pair
`(ctrl, heap)` returned alongside an error is the input pair unchanged. -/
def ConstructorCallbackImpl (ctrl : WeakRefCtrl) (heap : Heap) (info : CallInfo) :
    WeakRefCtrl × Heap × Except NativeFault ConstructOk :=
  if info.isConstructCall then
    match info.args with
    | [target] =>
        match target with
        | ScriptValue.object targetId =>
            let (weakRef, heap1) := heap.alloc
            let (_poTarget, heap2) := heap1.alloc
            let (_poHolder, heap3) := heap2.alloc
            let (_cbState, heap4) := heap3.alloc
            let (getterFunc, ctrl1, heap5) := GetGetterFunction ctrl heap4
            let (clearFunc, ctrl2, heap6) := GetClearFunction ctrl1 heap5
            (ctrl2, heap6, Except.ok
              { weakRef := weakRef
                inst := initInst targetId
                getterFunc := getterFunc
                clearFunc := clearFunc })
        | _ =>
            (ctrl, heap, Except.error (NativeFault.nsException
              (ctorFailureKind CtorErrKind.InvalidArgumentType)))
    | _ =>
        (ctrl, heap, Except.error (NativeFault.nsException
          (ctorFailureKind CtorErrKind.InvalidArgumentCount)))
  else
    (ctrl, heap, Except.error (NativeFault.nsException
      (ctorFailureKind CtorErrKind.InvalidInvocation)))

/-- Entry point `WeakRef::ConstructorCallback` (lines 24-46): the
implementation wrapped in the shared `try`/`catch` boundary. -/
def ConstructorCallback (fault? : Option NativeFault) (ctrl : WeakRefCtrl) (heap : Heap)
    (info : CallInfo) : Outcome (WeakRefCtrl × Heap × ConstructOk) :=
  match fault? with
  | some f => faultBoundary (α := WeakRefCtrl × Heap × ConstructOk) (Except.error f)
  | none =>
      match ConstructorCallbackImpl ctrl heap info with
      | (c, h, Except.ok r) => Outcome.ok (c, h, r)
      | (_, _, Except.error f) =>
          faultBoundary (α := WeakRefCtrl × Heap × ConstructOk) (Except.error f)

/-- Entry point `WeakRef::GettertCallback`: body wrapped in the shared
`try`/`catch` boundary. -/
def GettertCallback (fault? : Option NativeFault) (s : InstState) :
    Outcome (RetValue × InstState) :=
  faultBoundary (runBody fault? (Except.ok (getImpl s)))

/-- Entry point `WeakRef::ClearCallback`: body wrapped in the shared
`try`/`catch` boundary. -/
def ClearCallback (fault? : Option NativeFault) (s : InstState) : Outcome InstState :=
  faultBoundary (runBody fault? (Except.ok (clearImpl s)))

/-- Entry point `WeakRef::WeakHolderCallback`: body wrapped in the shared
`try`/`catch` boundary. -/
def WeakHolderCallback (fault? : Option NativeFault) (s : InstState) : Outcome InstState :=
  faultBoundary (runBody fault? (Except.ok (holderCbImpl s)))

/-- Entry point `WeakRef::WeakTargetCallback` (lines 93-113): unlike every
other entry point, its body is NOT wrapped in a `try`/`catch` in the
source, so a native fault raised inside it escapes uncaught. -/
def WeakTargetCallback (fault? : Option NativeFault) (s : InstState) : Outcome InstState :=
  noBoundary (runBody fault? (Except.ok (targetCbImpl s)))

/-- Every enabled step preserves the instance invariant. -/
theorem step_preserves_inv (s s' : InstState) (e : Event)
    (h : step s e = some s') (hinv : Inv s) : Inv s' := by
  obtain ⟨x, ⟨ct, ch⟩, sl, ta, ha, n⟩ := s
  cases e <;> cases ct <;> cases ch <;> cases ta <;> cases ha <;> cases sl <;>
    simp_all [step, fireTarget, fireHolder, targetCbImpl, holderCbImpl, clearImpl,
      getImpl, Inv] <;>
    (subst h; simp_all [Inv])

/-- Running any event sequence preserves the instance invariant. -/
theorem run_preserves_inv (tr : List Event) (s s' : InstState)
    (h : run s tr = some s') (hinv : Inv s) : Inv s' := by
  induction tr generalizing s with
  | nil =>
      simp [run] at h
      exact h ▸ hinv
  | cons e es ih =>
      unfold run at h
      cases hs : step s e with
      | none => rw [hs] at h; exact absurd h (by simp)
      | some s1 =>
          rw [hs] at h
          exact ih s1 h (step_preserves_inv s s1 e hs hinv)

/-- Once the hidden slot holds the absent sentinel, no step restores it. -/
theorem step_preserves_absent (s s' : InstState) (e : Event)
    (h : step s e = some s') (habs : s.slot = SlotVal.absent) : s'.slot = SlotVal.absent := by
  obtain ⟨x, ⟨ct, ch⟩, sl, ta, ha, n⟩ := s
  cases e <;> cases ct <;> cases ch <;> cases ta <;> cases ha <;> cases sl <;>
    simp_all [step, fireTarget, fireHolder, targetCbImpl, holderCbImpl, clearImpl, getImpl] <;>
    (subst h; simp_all)

/-- Once the hidden slot holds the absent sentinel, it stays absent along
any run. -/
theorem run_preserves_absent (tr : List Event) (s s' : InstState)
    (h : run s tr = some s') (habs : s.slot = SlotVal.absent) : s'.slot = SlotVal.absent := by
  induction tr generalizing s with
  | nil =>
      simp [run] at h
      exact h ▸ habs
  | cons e es ih =>
      unfold run at h
      cases hs : step s e with
      | none => rw [hs] at h; exact absurd h (by simp)
      | some s1 =>
          rw [hs] at h
          exact ih s1 h (step_preserves_absent s s1 e hs habs)

/-- The `csFreeCount` field changes only on finalize-callback events; the
`clear` and `get` entry points never free the record. -/
theorem free_only_in_callbacks (t u : InstState) (e : Event)
    (h : step t e = some u) (hne : u.csFreeCount ≠ t.csFreeCount) :
    e = Event.targetFinalize ∨ e = Event.holderFinalize := by
  cases e with
  | targetFinalize => exact Or.inl rfl
  | holderFinalize => exact Or.inr rfl
  | clear =>
      exfalso
      simp only [step] at h
      split at h
      · cases h; exact hne rfl
      · exact absurd h (by simp)
  | get =>
      exfalso
      simp only [step] at h
      split at h
      · cases h
        obtain ⟨x, cs, sl, ta, ha, n⟩ := t
        cases sl <;> exact hne rfl
      · exact absurd h (by simp)

/-- Claim C1: along every interleaving of the target-finalize callback, the
holder-finalize callback (with any number of re-arms) and script `clear()`
calls starting from a freshly constructed instance, the `CallbackState`
record is freed at most once, it is freed exactly when both its `target`
and `holder` fields have become null, it is never freed while either
handle is still registered (armed), and any step that changes the free
count is one of the two finalize callbacks. -/
theorem c1_callbackstate_freed_exactly_once (x : Nat) (tr : List Event) (s : InstState)
    (h : run (initInst x) tr = some s) :
    s.csFreeCount ≤ 1 ∧
    (s.csFreeCount = 1 ↔ (s.cs.target = false ∧ s.cs.holder = false)) ∧
    (s.targetArmed = true → s.csFreeCount = 0) ∧
    (s.holderArmed = true → s.csFreeCount = 0) ∧
    (∀ t u : InstState, ∀ e : Event, step t e = some u →
      u.csFreeCount ≠ t.csFreeCount →
      e = Event.targetFinalize ∨ e = Event.holderFinalize) := by
  have hinv : Inv s := run_preserves_inv tr (initInst x) s h (by simp [Inv, initInst])
  obtain ⟨h1, h2, h3⟩ := hinv
  refine ⟨?_, ?_, ?_, ?_, fun t u e hs hne => free_only_in_callbacks t u e hs hne⟩
  · rw [h3]; split <;> simp
  · rw [h3]; split <;> simp_all
  · intro hta
    rw [h3]
    have : s.cs.target = true := by rw [← h1, hta]
    simp [this]
  · intro hha
    rw [h3]
    have : s.cs.holder = true := by rw [← h2, hha]
    simp [this]

/-- Witness for C1 at a concrete instance and trace: target finalized
first, then the holder, from a fresh instance observing object 0. -/
theorem c1_callbackstate_freed_exactly_once_witness :
    (⟨0, ⟨false, false⟩, SlotVal.absent, false, false, 1⟩ : InstState).csFreeCount ≤ 1 ∧
    ((⟨0, ⟨false, false⟩, SlotVal.absent, false, false, 1⟩ : InstState).csFreeCount = 1 ↔
      ((⟨0, ⟨false, false⟩, SlotVal.absent, false, false, 1⟩ : InstState).cs.target = false ∧
       (⟨0, ⟨false, false⟩, SlotVal.absent, false, false, 1⟩ : InstState).cs.holder = false)) ∧
    ((⟨0, ⟨false, false⟩, SlotVal.absent, false, false, 1⟩ : InstState).targetArmed = true →
      (⟨0, ⟨false, false⟩, SlotVal.absent, false, false, 1⟩ : InstState).csFreeCount = 0) ∧
    ((⟨0, ⟨false, false⟩, SlotVal.absent, false, false, 1⟩ : InstState).holderArmed = true →
      (⟨0, ⟨false, false⟩, SlotVal.absent, false, false, 1⟩ : InstState).csFreeCount = 0) ∧
    (∀ t u : InstState, ∀ e : Event, step t e = some u →
      u.csFreeCount ≠ t.csFreeCount →
      e = Event.targetFinalize ∨ e = Event.holderFinalize) :=
  c1_callbackstate_freed_exactly_once 0 [Event.targetFinalize, Event.holderFinalize]
    ⟨0, ⟨false, false⟩, SlotVal.absent, false, false, 1⟩ (by decide)

/-- Claim C2: when the target-finalize callback fires, it releases the
target handle and nulls `callbackState->target`; if the holder handle is
still registered it overwrites the holder's hidden slot with the absent
sentinel (so a subsequent `get()` returns null) and does not free the
record; if the holder handle is already gone it frees the
`CallbackState`. -/
theorem c2_target_finalize_effect (s : InstState)
    (harm : s.targetArmed = true) (hinv : Inv s) :
    ∃ s', step s Event.targetFinalize = some s' ∧
      s'.cs.target = false ∧ s'.targetArmed = false ∧
      (s.holderArmed = true →
        s'.cs.holder = true ∧ s'.slot = SlotVal.absent ∧
        (getImpl s').1 = RetValue.nullVal ∧ s'.csFreeCount = s.csFreeCount) ∧
      (s.holderArmed = false →
        s'.cs.holder = false ∧ s'.csFreeCount = s.csFreeCount + 1) := by
  refine ⟨fireTarget s, by simp [step, harm], ?_⟩
  obtain ⟨x, ⟨ct, ch⟩, sl, ta, ha, n⟩ := s
  obtain ⟨h1, h2, h3⟩ := hinv
  cases ct <;> cases ch <;> cases ta <;> cases ha <;> cases sl <;>
    simp_all [fireTarget, targetCbImpl, getImpl]

/-- Witness for C2 at a freshly constructed instance. -/
theorem c2_target_finalize_effect_witness :
    ∃ s', step (initInst 0) Event.targetFinalize = some s' ∧
      s'.cs.target = false ∧ s'.targetArmed = false ∧
      ((initInst 0).holderArmed = true →
        s'.cs.holder = true ∧ s'.slot = SlotVal.absent ∧
        (getImpl s').1 = RetValue.nullVal ∧ s'.csFreeCount = (initInst 0).csFreeCount) ∧
      ((initInst 0).holderArmed = false →
        s'.cs.holder = false ∧ s'.csFreeCount = (initInst 0).csFreeCount + 1) :=
  c2_target_finalize_effect (initInst 0) rfl (by decide)

/-- Claim C3: when the holder-finalize callback fires, if the hidden slot
still denotes a live target handle the callback re-registers itself on
the holder handle and changes nothing else (the resulting state is the
original state: no `CallbackState` field is modified and nothing is
freed); if the slot denotes the absent sentinel it releases the holder
handle, nulls `callbackState->holder`, and frees the `CallbackState`
exactly when `callbackState->target` is already null. -/
theorem c3_holder_finalize_effect (s : InstState)
    (harm : s.holderArmed = true) (hinv : Inv s) :
    ∃ s', step s Event.holderFinalize = some s' ∧
      (s.slot = SlotVal.live → s' = s) ∧
      (s.slot = SlotVal.absent →
        s'.cs.holder = false ∧ s'.holderArmed = false ∧
        s'.cs.target = s.cs.target ∧ s'.targetArmed = s.targetArmed ∧
        s'.slot = SlotVal.absent ∧
        (s.cs.target = false → s'.csFreeCount = s.csFreeCount + 1) ∧
        (s.cs.target = true → s'.csFreeCount = s.csFreeCount)) := by
  refine ⟨fireHolder s, by simp [step, harm], ?_⟩
  obtain ⟨x, ⟨ct, ch⟩, sl, ta, ha, n⟩ := s
  obtain ⟨h1, h2, h3⟩ := hinv
  cases ct <;> cases ch <;> cases ta <;> cases ha <;> cases sl <;>
    simp_all [fireHolder, holderCbImpl]

/-- Witness for C3 at a concrete state in which the target has already
been finalized (slot absent, target field null): the holder callback
releases the holder handle and frees the record. -/
theorem c3_holder_finalize_effect_witness :
    ∃ s', step (⟨0, ⟨false, true⟩, SlotVal.absent, false, true, 0⟩ : InstState)
        Event.holderFinalize = some s' ∧
      ((⟨0, ⟨false, true⟩, SlotVal.absent, false, true, 0⟩ : InstState).slot = SlotVal.live →
        s' = (⟨0, ⟨false, true⟩, SlotVal.absent, false, true, 0⟩ : InstState)) ∧
      ((⟨0, ⟨false, true⟩, SlotVal.absent, false, true, 0⟩ : InstState).slot = SlotVal.absent →
        s'.cs.holder = false ∧ s'.holderArmed = false ∧
        s'.cs.target = (⟨0, ⟨false, true⟩, SlotVal.absent, false, true, 0⟩ : InstState).cs.target ∧
        s'.targetArmed = (⟨0, ⟨false, true⟩, SlotVal.absent, false, true, 0⟩ : InstState).targetArmed ∧
        s'.slot = SlotVal.absent ∧
        ((⟨0, ⟨false, true⟩, SlotVal.absent, false, true, 0⟩ : InstState).cs.target = false →
          s'.csFreeCount = (⟨0, ⟨false, true⟩, SlotVal.absent, false, true, 0⟩ : InstState).csFreeCount + 1) ∧
        ((⟨0, ⟨false, true⟩, SlotVal.absent, false, true, 0⟩ : InstState).cs.target = true →
          s'.csFreeCount = (⟨0, ⟨false, true⟩, SlotVal.absent, false, true, 0⟩ : InstState).csFreeCount)) :=
  c3_holder_finalize_effect ⟨0, ⟨false, true⟩, SlotVal.absent, false, true, 0⟩ rfl (by decide)

/-- Claim C4, counterexample: the claim that every entry point, including
the target-finalize handler, is a fault boundary is false on the code.
`WeakRef::WeakTargetCallback` has no `try`/`catch` in the source, so a
native fault raised inside it escapes uncaught into the engine instead of
being re-raised as a script-visible exception. -/
theorem c4_counterexample :
    WeakTargetCallback (some NativeFault.unknown) (initInst 0) =
      Outcome.nativeEscape NativeFault.unknown ∧
    (WeakTargetCallback (some NativeFault.unknown) (initInst 0)).escaped = true :=
  ⟨rfl, rfl⟩

/-- Claim C4, amended: the constructor, `get()`, `clear()` and the
holder-finalize handler are fault boundaries — any native fault raised
inside them is caught and re-raised as a script-visible exception, with
an unknown fault type reported via the generic internal-fault message —
but the target-finalize handler is not: a fault raised inside it
propagates uncaught into the engine. -/
theorem c4_fault_boundaries (f : NativeFault) (ctrl : WeakRefCtrl) (heap : Heap)
    (info : CallInfo) (s : InstState) :
    ConstructorCallback (some f) ctrl heap info = Outcome.scriptError (reThrowMessage f) ∧
    GettertCallback (some f) s = Outcome.scriptError (reThrowMessage f) ∧
    ClearCallback (some f) s = Outcome.scriptError (reThrowMessage f) ∧
    WeakHolderCallback (some f) s = Outcome.scriptError (reThrowMessage f) ∧
    reThrowMessage NativeFault.unknown = "Error: c++ exception!" ∧
    WeakTargetCallback (some f) s = Outcome.nativeEscape f :=
  ⟨rfl, rfl, rfl, rfl, rfl, rfl⟩

/-- Claim C5: the constructor succeeds on a construct call with exactly one
object argument, returning a fresh holder; on a construct call with arity
other than one it fails with the `InvalidArgumentCount` message; on a
construct call whose single argument is not an object it fails with the
`InvalidArgumentType` message; and when not invoked as a construct call it
fails with the `InvalidInvocation` message — each message verbatim. -/
theorem c5_constructor_validation (ctrl : WeakRefCtrl) (heap : Heap) (info : CallInfo) :
    (info.isConstructCall = true → ∀ x : Nat, info.args = [ScriptValue.object x] →
      ∃ r : ConstructOk, (ConstructorCallbackImpl ctrl heap info).2.2 = Except.ok r ∧
        r.weakRef = heap.nextId) ∧
    (info.isConstructCall = true → info.args.length ≠ 1 →
      (ConstructorCallbackImpl ctrl heap info).2.2 =
        Except.error (NativeFault.nsException
          (ctorFailureKind CtorErrKind.InvalidArgumentCount))) ∧
    (info.isConstructCall = true → ∀ v : ScriptValue, info.args = [v] → v.isObject = false →
      (ConstructorCallbackImpl ctrl heap info).2.2 =
        Except.error (NativeFault.nsException
          (ctorFailureKind CtorErrKind.InvalidArgumentType))) ∧
    (info.isConstructCall = false →
      (ConstructorCallbackImpl ctrl heap info).2.2 =
        Except.error (NativeFault.nsException
          (ctorFailureKind CtorErrKind.InvalidInvocation))) ∧
    (ctorFailureKind CtorErrKind.InvalidArgumentCount =
        "The WeakRef constructor expects single parameter." ∧
      ctorFailureKind CtorErrKind.InvalidArgumentType =
        "The WeakRef constructor expects an object argument." ∧
      ctorFailureKind CtorErrKind.InvalidInvocation =
        "WeakRef must be used as a construct call.") := by
  obtain ⟨cc, args⟩ := info
  refine ⟨?_, ?_, ?_, ?_, rfl, rfl, rfl⟩
  · rintro hcc x rfl
    simp only at hcc
    subst hcc
    obtain ⟨g, c⟩ := ctrl
    cases g <;> cases c <;> exact ⟨_, rfl, rfl⟩
  · rintro hcc hlen
    simp only at hcc
    subst hcc
    rcases args with _ | ⟨a, _ | ⟨b, l⟩⟩
    · simp [ConstructorCallbackImpl]
    · exact absurd rfl hlen
    · simp [ConstructorCallbackImpl]
  · rintro hcc v rfl hv
    simp only at hcc
    subst hcc
    cases v <;> simp_all [ConstructorCallbackImpl, ScriptValue.isObject]
  · rintro hcc
    simp only at hcc
    subst hcc
    simp [ConstructorCallbackImpl]

/-- Witness for C5: a plain (non-construct) call fails with the exact
invalid-invocation message. -/
theorem c5_constructor_validation_witness :
    (ConstructorCallbackImpl ⟨none, none⟩ ⟨0⟩ ⟨false, []⟩).2.2 =
      Except.error (NativeFault.nsException
        (ctorFailureKind CtorErrKind.InvalidInvocation)) :=
  (c5_constructor_validation ⟨none, none⟩ ⟨0⟩ ⟨false, []⟩).2.2.2.1 rfl

/-- Claim C6: immediately after a successful construction on object `x`,
`get()` reads the live weak handle in the hidden slot, resolves it, and
returns exactly `x`; and whenever the hidden slot holds the absent
sentinel, `get()` returns the null value. -/
theorem c6_get_after_construction (ctrl : WeakRefCtrl) (heap : Heap) (x : Nat)
    (info : CallInfo) (hcc : info.isConstructCall = true)
    (hargs : info.args = [ScriptValue.object x]) :
    (∃ r : ConstructOk, (ConstructorCallbackImpl ctrl heap info).2.2 = Except.ok r ∧
      r.inst = initInst x ∧ (getImpl r.inst).1 = RetValue.obj x) ∧
    (∀ s : InstState, s.slot = SlotVal.absent → (getImpl s).1 = RetValue.nullVal) := by
  constructor
  · obtain ⟨cc, args⟩ := info
    simp only at hcc hargs
    subst hcc
    subst hargs
    obtain ⟨g, c⟩ := ctrl
    cases g <;> cases c <;> exact ⟨_, rfl, rfl, rfl⟩
  · intro s hs
    simp [getImpl, hs]

/-- Witness for C6 at a concrete construction of a wrapper around
object 5. -/
theorem c6_get_after_construction_witness :
    (∃ r : ConstructOk,
      (ConstructorCallbackImpl ⟨none, none⟩ ⟨0⟩ ⟨true, [ScriptValue.object 5]⟩).2.2 =
        Except.ok r ∧
      r.inst = initInst 5 ∧ (getImpl r.inst).1 = RetValue.obj 5) ∧
    (∀ s : InstState, s.slot = SlotVal.absent → (getImpl s).1 = RetValue.nullVal) :=
  c6_get_after_construction ⟨none, none⟩ ⟨0⟩ 5 ⟨true, [ScriptValue.object 5]⟩ rfl rfl

/-- Claim C7: after `clear()` runs on an instance, `get()` returns null,
and it keeps returning null after any further sequence of events (even if
the target is still otherwise reachable); such `get()` calls are
idempotent and side-effect-free, returning the same result and leaving
the state unchanged. -/
theorem c7_clear_then_get_null (s : InstState) (tr : List Event) (s' : InstState)
    (h : run (clearImpl s) tr = some s') :
    (getImpl s').1 = RetValue.nullVal ∧ (getImpl s').2 = s' := by
  have habs : s'.slot = SlotVal.absent :=
    run_preserves_absent tr (clearImpl s) s' h rfl
  exact ⟨by simp [getImpl, habs], by simp [getImpl, habs]⟩

/-- Witness for C7: clearing a fresh instance and running the empty
trace; `get()` observes null and changes nothing. -/
theorem c7_clear_then_get_null_witness :
    (getImpl (⟨0, ⟨true, true⟩, SlotVal.absent, true, true, 0⟩ : InstState)).1 =
      RetValue.nullVal ∧
    (getImpl (⟨0, ⟨true, true⟩, SlotVal.absent, true, true, 0⟩ : InstState)).2 =
      (⟨0, ⟨true, true⟩, SlotVal.absent, true, true, 0⟩ : InstState) :=
  c7_clear_then_get_null (initInst 0) []
    ⟨0, ⟨true, true⟩, SlotVal.absent, true, true, 0⟩ (by decide)

/-- Claim C8: `clear()` unconditionally and synchronously overwrites the
holder's hidden slot with the absent sentinel and modifies nothing else:
the `CallbackState` fields, the free count, both callback registrations
and the target reference are untouched. -/
theorem c8_clear_effect (s : InstState) :
    (clearImpl s).slot = SlotVal.absent ∧
    (clearImpl s).cs = s.cs ∧
    (clearImpl s).csFreeCount = s.csFreeCount ∧
    (clearImpl s).targetArmed = s.targetArmed ∧
    (clearImpl s).holderArmed = s.holderArmed ∧
    (clearImpl s).targetObj = s.targetObj :=
  ⟨rfl, rfl, rfl, rfl, rfl, rfl⟩

/-- Claim C9: the `get` and `clear` accessor functions are built lazily
and cached on the controller.  On a controller whose cache field is empty
the first request builds a fresh callable and stores it; after any first
request, every subsequent request returns the very same cached function
object and leaves the controller unchanged, so there is one shared `get`
and one shared `clear` implementation for all instances of the same
controller. -/
theorem c9_accessor_function_caching (ctrl : WeakRefCtrl) (h h' : Heap)
    (g c : Option Nat) :
    GetGetterFunction ⟨none, c⟩ h = (h.nextId, ⟨some h.nextId, c⟩, ⟨h.nextId + 1⟩) ∧
    GetClearFunction ⟨g, none⟩ h = (h.nextId, ⟨g, some h.nextId⟩, ⟨h.nextId + 1⟩) ∧
    GetGetterFunction (GetGetterFunction ctrl h).2.1 h' =
      ((GetGetterFunction ctrl h).1, (GetGetterFunction ctrl h).2.1, h') ∧
    GetClearFunction (GetClearFunction ctrl h).2.1 h' =
      ((GetClearFunction ctrl h).1, (GetClearFunction ctrl h).2.1, h') := by
  obtain ⟨g0, c0⟩ := ctrl
  refine ⟨rfl, rfl, ?_, ?_⟩ <;>
    cases g0 <;> cases c0 <;>
      simp [GetGetterFunction, GetClearFunction, Heap.alloc]

/-- Claim C10: constructor failure is atomic.  Whenever
`ConstructorCallbackImpl` fails with any of the three validation errors,
the error is raised before any side effect: the heap is unchanged (no
holder object, no weak handle, no `CallbackState` is allocated) and the
controller is unchanged (the cached accessor functions are not
modified). -/
theorem c10_constructor_failure_atomic (ctrl : WeakRefCtrl) (heap : Heap)
    (info : CallInfo) (f : NativeFault)
    (h : (ConstructorCallbackImpl ctrl heap info).2.2 = Except.error f) :
    (ConstructorCallbackImpl ctrl heap info).1 = ctrl ∧
    (ConstructorCallbackImpl ctrl heap info).2.1 = heap := by
  obtain ⟨cc, args⟩ := info
  cases cc
  · simp [ConstructorCallbackImpl]
  · rcases args with _ | ⟨a, _ | ⟨b, l⟩⟩
    · simp [ConstructorCallbackImpl]
    · obtain ⟨g, c⟩ := ctrl
      cases a <;> cases g <;> cases c <;>
        simp_all [ConstructorCallbackImpl, GetGetterFunction, GetClearFunction, Heap.alloc]
    · simp [ConstructorCallbackImpl]

/-- Witness for C10: a construct call with a non-object argument fails
and leaves the controller and the heap exactly as they were. -/
theorem c10_constructor_failure_atomic_witness :
    (ConstructorCallbackImpl ⟨none, none⟩ ⟨0⟩ ⟨true, [ScriptValue.number 5]⟩).1 =
      (⟨none, none⟩ : WeakRefCtrl) ∧
    (ConstructorCallbackImpl ⟨none, none⟩ ⟨0⟩ ⟨true, [ScriptValue.number 5]⟩).2.1 =
      (⟨0⟩ : Heap) :=
  c10_constructor_failure_atomic ⟨none, none⟩ ⟨0⟩ ⟨true, [ScriptValue.number 5]⟩
    (NativeFault.nsException "The WeakRef constructor expects an object argument.")
    rfl

end WeakRefModel
